import Mathlib

/-!
Shallow embedding of the client-side reconciliation and gamification core of
the Smack Talk Central chat application, together with proofs of its
specification claims.

Source files embedded here:
  * `src/utils/sanitize.js` (full version with media validation)
  * `src/services/userStatsService.js` (XP rules, levels, streak bonus)
  * `src/services/klipyService.js` (URL allow-list, referenced only)
  * `src/App.js` (event handlers: dedup ledger, send/receive, polls,
    reactions, GIF selection, XP awarding)
  * `components/PollSidebar.js` (percentages, winning option, vote guard)

JavaScript numbers are modelled as `Int` (timestamps) or `Nat` (counts/ids);
JS objects with a fixed shape become structures; optional / possibly-missing
fields become `Option`; the JS `Set` of processed ids becomes a duplicate-free
`List Nat`; the JS object used as a vote map becomes an association list whose
first matching key wins (spread-update prepends).
-/

set_option autoImplicit false

namespace SmackTalk

/-- Model of a dynamically-typed JavaScript value, as far as the sanitizer
inspects one: it only ever distinguishes "is a string" from everything else. -/
inductive JSValue where
  | str (s : String)
  | num (n : Int)
  | boolean (b : Bool)
  | null
  | undef
  | obj
  deriving DecidableEq

/-- sanitize.js `HTML_ENTITIES` / the replacement callback of `sanitizeText`:
each character matched by the class `[&<>"'`=/]` is replaced by its HTML
entity; any other character is kept. -/
def escapeChar (c : Char) : String :=
  if c = '&' then "&amp;"
  else if c = '<' then "&lt;"
  else if c = '>' then "&gt;"
  else if c = Char.ofNat 34 then "&quot;"
  else if c = Char.ofNat 39 then "&#x27;"
  else if c = '/' then "&#x2F;"
  else if c = Char.ofNat 96 then "&#x60;"
  else if c = '=' then "&#x3D;"
  else String.singleton c

/-- The global regex replace of `sanitizeText`, character by character. -/
def sanitizeChars : List Char → List Char
  | [] => []
  | c :: cs => (escapeChar c).data ++ sanitizeChars cs

/-- sanitize.js `sanitizeText`, string case: `text.replace(/[&<>"'`=/]/g, ...)`. -/
def sanitizeTextStr (s : String) : String :=
  ⟨sanitizeChars s.data⟩

/-- sanitize.js `sanitizeText` on an arbitrary JS value:
`if (typeof text !== 'string') return '';`. -/
def sanitizeText : JSValue → String
  | .str s => sanitizeTextStr s
  | _ => ""

/-- sanitize.js `normalizeMessageInput`: trim and cut to `maxLength`
(default 500). -/
def normalizeMessageInput (text : String) (maxLength : Nat := 500) : String :=
  (text.trim).take maxLength

/-- Media attachment object `{type, url, alt, width, height}` as built by
`handleSelectGif` and consumed by `sanitizeMedia` (which reads only
`type`/`url`/`alt`; `width`/`height` default to 0 where the JS object has no
such field). -/
structure MediaData where
  type : String
  url : String
  alt : String
  width : Int := 0
  height : Int := 0
  deriving DecidableEq

/-- sanitize.js `ALLOWED_MEDIA_DOMAINS`. -/
def ALLOWED_MEDIA_DOMAINS : List String :=
  [ "media.giphy.com"
  , "giphy.com"
  , "i.giphy.com"
  , "media0.giphy.com"
  , "media1.giphy.com"
  , "media2.giphy.com"
  , "media3.giphy.com"
  , "media4.giphy.com"
  , "tenor.com"
  , "media.tenor.com"
  , "c.tenor.com"
  , "klipy.com"
  , "static.klipy.com" ]

/-- Character-level scanner behind the `new URL(...)` model: splits the
input at the first `://`, returning the scheme characters before it and the
characters after it. -/
def splitScheme : List Char → Option (List Char × List Char)
  | [] => none
  | c :: cs =>
      if c = ':' then
        match cs with
        | sl1 :: sl2 :: rest =>
            if sl1 = '/' ∧ sl2 = '/' then some ([], rest) else none
        | _ => none
      else
        match splitScheme cs with
        | some (scheme, rest) => some (c :: scheme, rest)
        | none => none

/-- Suffix test on strings (the behavior of JS `String.prototype.endsWith` /
Lean's `String.endsWith`, stated over the character lists). -/
def strEndsWith (s suffix : String) : Bool :=
  suffix.data.isSuffixOf s.data

/-- Model of the browser's `new URL(...)` constructor (an external platform
builtin), restricted to what `sanitizeMedia` reads from it: the `protocol`
(scheme plus a trailing colon) and the `hostname`.  A string of the shape
`scheme://host/...` parses to `(scheme ++ ":", host)`; anything else throws,
modelled as `none`. -/
def parseProtoHost (s : String) : Option (String × String) :=
  match splitScheme s.data with
  | none => none
  | some (scheme, rest) =>
      if scheme = [] then none
      else some (⟨scheme⟩ ++ ":", ⟨rest.takeWhile (fun c => c != '/')⟩)

/-- sanitize.js `sanitizeMedia`: requires `type === 'gif'`, a nonempty string
URL that parses, the `https:` protocol, and a hostname on the allow-list
(exact match or subdomain); returns the `{type, url, alt}` object with the
alt text sanitized (`media.alt || 'GIF'`), or `null`. -/
def sanitizeMedia (media : MediaData) : Option MediaData :=
  if media.type ≠ "gif" then none
  else if media.url = "" then none
  else
    match parseProtoHost media.url with
    | none => none
    | some (proto, host) =>
        if proto ≠ "https:" then none
        else if (ALLOWED_MEDIA_DOMAINS.any (fun d =>
            host = d || strEndsWith host ("." ++ d))) = false then none
        else some { type := "gif", url := media.url,
                    alt := sanitizeTextStr (if media.alt = "" then "GIF" else media.alt) }

/-- A chat message / ChatEvent as kept in the `messages` state of `App.js`:
`{id, username, text, timestamp, type, media?}`.  `type` is one of
`"message"`, `"reaction"`, `"system"`. -/
structure ChatMessage where
  id : Nat
  username : String
  text : String
  timestamp : String := ""
  type : String
  media : Option MediaData := none
  deriving DecidableEq

/-- sanitize.js `sanitizeMessageWithMedia`: sanitizes `text` and `username`,
and validates `media` when present, deleting it when `sanitizeMedia`
rejects it. -/
def sanitizeMessageWithMedia (m : ChatMessage) : ChatMessage :=
  let base := { m with text := sanitizeTextStr m.text,
                       username := sanitizeTextStr m.username }
  match m.media with
  | none => base
  | some md =>
      match sanitizeMedia md with
      | some ok => { base with media := some ok }
      | none => { base with media := none }

/-! ## Deduplication ledger (`processedMessageIds`, a JS `Set` of ids) -/

/-- `processedMessageIds.current.has(id)`. -/
def hasProcessed (ledger : List Nat) (id : Nat) : Bool :=
  ledger.contains id

/-- `processedMessageIds.current.add(id)` (JS `Set.add` is a no-op on a
present element). -/
def markProcessed (ledger : List Nat) (id : Nat) : List Nat :=
  if ledger.contains id then ledger else id :: ledger

/-! ## Polls -/

/-- One poll option `{id, text, votes}` as built by `handleCreatePoll`. -/
structure PollOption where
  id : Nat
  text : String
  votes : Nat
  deriving DecidableEq

/-- A poll as kept in the `polls` state of `App.js`. -/
structure Poll where
  id : String
  question : String
  options : List PollOption
  totalVotes : Nat
  createdBy : String
  createdAt : String := ""
  status : String
  deriving DecidableEq

/-! ## Session state

The `App` component state relevant to the claims: visible messages, the
dedup ledger, polls, the per-session vote record (`userVotes`, a JS object
updated by spread, modelled as an association list where the first matching
key wins), and the optimistic `userStats.xp`. -/

structure AppState where
  messages : List ChatMessage
  processedMessageIds : List Nat
  polls : List Poll
  userVotes : List (String × Nat)
  xp : Int
  deriving DecidableEq

/-- `userVotes[pollId]` lookup. -/
def lookupVote (userVotes : List (String × Nat)) (pollId : String) : Option Nat :=
  userVotes.lookup pollId

/-- `setUserVotes(prev => ({...prev, [pollId]: optionId}))`: the new binding
shadows any earlier one. -/
def setVote (userVotes : List (String × Nat)) (pollId : String) (optionId : Nat) :
    List (String × Nat) :=
  (pollId, optionId) :: userVotes

/-! ## Streak and XP (`userStatsService.js` and `App.js`) -/

/-- userStatsService.js `XP_RULES`. -/
structure XPRules where
  message : Nat
  streak3 : Nat
  streak5 : Nat
  streak10 : Nat
  smackdown : Nat
  pollVote : Nat
  pollCreate : Nat
  deriving DecidableEq

/-- The concrete `XP_RULES` table. -/
def XP_RULES : XPRules :=
  { message := 5, streak3 := 15, streak5 := 30, streak10 := 50,
    smackdown := 25, pollVote := 5, pollCreate := 10 }

/-- userStatsService.js `calculateStreakBonus`. -/
def calculateStreakBonus (streakCount : Nat) : Nat :=
  if streakCount = 10 then XP_RULES.streak10
  else if streakCount = 5 then XP_RULES.streak5
  else if streakCount = 3 then XP_RULES.streak3
  else 0

/-- App.js `calculateCurrentStreak` walks `messageList` from its last element
backward; this helper consumes the already-reversed list: a `message` by
`username` adds one and continues, a `message` by anyone else stops the scan,
anything that is not a `message` is skipped. -/
def streakAux : List ChatMessage → String → Nat
  | [], _ => 0
  | m :: rest, username =>
      if m.type = "message" ∧ m.username = username then
        streakAux rest username + 1
      else if m.type = "message" then 0
      else streakAux rest username

/-- App.js `calculateCurrentStreak(messageList, username)`. -/
def calculateCurrentStreak (messageList : List ChatMessage) (username : String) : Nat :=
  streakAux messageList.reverse username

/-- The `totalXP` computed by App.js `awardXPForMessage`: the flat message
award plus the streak-milestone bonus for the streak measured on the message
list that already contains the new message. -/
def awardXPForMessage (newMessages : List ChatMessage) (username : String) : Nat :=
  XP_RULES.message + calculateStreakBonus (calculateCurrentStreak newMessages username)

/-! ## Levels (`userStatsService.js`) -/

/-- One entry of the `LEVELS` table. -/
structure LevelTier where
  level : Nat
  name : String
  xpRequired : Int
  deriving DecidableEq

/-- Tier 1 of the `LEVELS` table. -/
def tierRookie : LevelTier := { level := 1, name := "Rookie Ranter", xpRequired := 0 }

/-- Tier 2 of the `LEVELS` table. -/
def tierSniper : LevelTier := { level := 2, name := "Sideline Sniper", xpRequired := 100 }

/-- Tier 3 of the `LEVELS` table. -/
def tierHeckler : LevelTier := { level := 3, name := "Halftime Heckler", xpRequired := 300 }

/-- Tier 4 of the `LEVELS` table. -/
def tierFiend : LevelTier := { level := 4, name := "Fourth-Quarter Fiend", xpRequired := 600 }

/-- Tier 5 of the `LEVELS` table. -/
def tierFlame : LevelTier := { level := 5, name := "Hall-of-Flame", xpRequired := 1000 }

/-- userStatsService.js `LEVELS`. -/
def LEVELS : List LevelTier :=
  [tierRookie, tierSniper, tierHeckler, tierFiend, tierFlame]

/-- The descending index loop of `calculateLevel`: first tier (scanning the
given list, which is `LEVELS` reversed) whose requirement is met. -/
def findLevel : List LevelTier → Int → Option LevelTier
  | [], _ => none
  | t :: rest, xp => if t.xpRequired ≤ xp then some t else findLevel rest xp

/-- userStatsService.js `calculateLevel`: scan `LEVELS` from the top down,
return the first tier whose `xpRequired` is at most `xp`, falling back to
`LEVELS[0]`. -/
def calculateLevel (xp : Int) : LevelTier :=
  (findLevel LEVELS.reverse xp).getD tierRookie

/-! ## Event handlers of `App.js` -/

/-- The `next` callback of the AppSync subscription in `connectToChannel`:
an event with a truthy, not-yet-processed id is marked processed, sanitized
(including media validation) and appended to the visible messages; anything
else leaves the state untouched. -/
def receiveEvent (st : AppState) (data : ChatMessage) : AppState :=
  if data.id ≠ 0 ∧ hasProcessed st.processedMessageIds data.id = false then
    { st with processedMessageIds := markProcessed st.processedMessageIds data.id,
              messages := st.messages ++ [sanitizeMessageWithMedia data] }
  else st

/-- App.js `handleSendMessage`: requires sign-in and a nonempty normalized
text; builds the optimistic message with the current epoch millisecond as id,
marks the id processed, appends the message, and adds the XP delta computed
by `awardXPForMessage` on the updated list.  (The network publish and the
DynamoDB save are fire-and-forget and do not touch this state.) -/
def handleSendMessage (st : AppState) (isSignedIn : Bool)
    (currentMessage currentUsername : String) (now : Nat) : AppState :=
  if isSignedIn = false then st
  else
    let sanitizedText := normalizeMessageInput currentMessage
    if sanitizedText = "" then st
    else
      let newMessage : ChatMessage :=
        { id := now, username := sanitizeTextStr currentUsername,
          text := sanitizedText, type := "message" }
      let updatedMessages := st.messages ++ [newMessage]
      { st with
          processedMessageIds := markProcessed st.processedMessageIds now,
          messages := updatedMessages,
          xp := st.xp + awardXPForMessage updatedMessages currentUsername }

/-- App.js `handleSelectGif`: wraps the picker selection `(url, alt, width,
height)` into a `{type:'gif', ...}` media object and an optimistic message,
marks the id, appends the message and awards XP.  No validation is applied on
this path. -/
def handleSelectGif (st : AppState) (currentUsername url alt : String)
    (width height : Int) (now : Nat) : AppState :=
  let gifData : MediaData :=
    { type := "gif", url := url, alt := alt, width := width, height := height }
  let newMessage : ChatMessage :=
    { id := now, username := sanitizeTextStr currentUsername,
      text := "", type := "message", media := some gifData }
  { st with
      processedMessageIds := markProcessed st.processedMessageIds now,
      messages := st.messages ++ [newMessage],
      xp := st.xp + awardXPForMessage (st.messages ++ [newMessage]) currentUsername }

/-- App.js `addSystemMessage`. -/
def addSystemMessage (st : AppState) (text : String) (now : Nat) : AppState :=
  { st with messages := st.messages ++
      [{ id := now, username := "System", text := text, type := "system" }] }

/-- App.js `handleCreatePoll`: builds the poll with options numbered from 1,
zero votes everywhere, status `active`, prepends it to `polls` and announces
it with a system message.  It never touches `userStats`. -/
def handleCreatePoll (st : AppState) (currentUsername question : String)
    (optionTexts : List String) (now : Nat) (tsDisplay : String) : AppState :=
  let newPoll : Poll :=
    { id := "poll-" ++ toString now,
      question := question,
      options := optionTexts.enum.map (fun p =>
        { id := p.1 + 1, text := p.2, votes := 0 }),
      totalVotes := 0,
      createdBy := currentUsername,
      createdAt := tsDisplay,
      status := "active" }
  addSystemMessage { st with polls := newPoll :: st.polls }
    ("New poll created: " ++ question) now

/-- The per-poll update inside `handleVote`: the matching poll gets the
target option bumped and `totalVotes` incremented; other polls are
unchanged. -/
def voteOnPoll (pollId : String) (optionId : Nat) (poll : Poll) : Poll :=
  if poll.id = pollId then
    { poll with
        options := poll.options.map (fun opt =>
          if opt.id = optionId then { opt with votes := opt.votes + 1 } else opt),
        totalVotes := poll.totalVotes + 1 }
  else poll

/-- App.js `handleVote`: requires sign-in, records the vote in `userVotes`
and applies `voteOnPoll` across the poll list.  It performs no
already-voted or status check itself and never touches `userStats`. -/
def handleVote (isSignedIn : Bool) (st : AppState) (pollId : String)
    (optionId : Nat) : AppState :=
  if isSignedIn = false then st
  else
    { st with userVotes := setVote st.userVotes pollId optionId,
              polls := st.polls.map (voteOnPoll pollId optionId) }

/-- PollSidebar.js renders a poll in the active section (with `isPast =
false`) exactly when `status === 'active'`, and in the past section (with
`isPast = true`) exactly when `status === 'closed'`; any other status is not
rendered at all. -/
def renderIsPast (p : Poll) : Option Bool :=
  if p.status = "active" then some false
  else if p.status = "closed" then some true
  else none

/-- The complete vote path as the user can trigger it: the option button's
`onClick` in `PollSidebar.renderPollCard` fires `onVote` only when
`!isPast && !hasVoted` (where `hasVoted` means `userVotes[poll.id] !==
undefined`), and `onVote` is `handleVote`. -/
def applyVote (isSignedIn : Bool) (st : AppState) (p : Poll) (optionId : Nat) :
    AppState :=
  match renderIsPast p with
  | none => st
  | some isPast =>
      if isPast = false ∧ lookupVote st.userVotes p.id = none then
        handleVote isSignedIn st p.id optionId
      else st

/-- The accumulator loop of PollSidebar.js `getWinningOptionId`: carries
`(maxVotes, winnerId)` and updates only on a strictly greater vote count. -/
def winnerFold : List PollOption → Nat × Option Nat → Nat × Option Nat
  | [], acc => acc
  | o :: rest, acc =>
      if o.votes > acc.1 then winnerFold rest (o.votes, some o.id)
      else winnerFold rest acc

/-- PollSidebar.js `getWinningOptionId`: `null` on a voteless poll, otherwise
a linear scan starting from `maxVotes = 0`, `winnerId = null`. -/
def getWinningOptionId (poll : Poll) : Option Nat :=
  if poll.totalVotes = 0 then none
  else (winnerFold poll.options (0, none)).2

/-! ## Reactions (`App.js`) -/

/-- One entry of `reactionTimestamps`: `{emoji, timestamp}` (epoch ms). -/
structure ReactionEntry where
  emoji : String
  timestamp : Int
  deriving DecidableEq

/-- The fixed five-emoji enumeration used for `reactionCounts`. -/
def EMOJIS : List String := ["🔥", "👍", "😮", "💪", "😂"]

/-- The count map rebuilt by each decay tick, as a function on emoji symbols
(the JS object has exactly the five enumerated keys; symbols outside the set
are never counted because `newCounts[r.emoji] !== undefined` fails). -/
def bumpIfTracked (counts : String → Nat) (e : String) : String → Nat :=
  if e ∈ EMOJIS then (fun x => if x = e then counts x + 1 else counts x)
  else counts

/-- The recomputation loop `recent.forEach(...)` over the zero-initialised
count object. -/
def recomputeCounts (recent : List ReactionEntry) : String → Nat :=
  recent.foldl (fun c r => bumpIfTracked c r.emoji) (fun _ => 0)

/-- One firing of the 1-second decay interval in `App.js`: drop entries at or
past the 30-second horizon (`r.timestamp > Date.now() - 30000` is kept) and
rebuild the externally observed count map from the survivors. -/
def reactionTick (now : Int) (prev : List ReactionEntry) :
    List ReactionEntry × (String → Nat) :=
  let recent := prev.filter (fun r => r.timestamp > now - 30000)
  (recent, recomputeCounts recent)

/-! ## Derived quantities and specification-side definitions -/

/-- Sum of the per-option vote counts of a poll (the quantity `totalVotes`
is supposed to track). -/
def sumVotes (p : Poll) : Nat :=
  (p.options.map PollOption.votes).sum

/-- Total votes recorded for a given option id within a poll. -/
def votesFor (p : Poll) (i : Nat) : Nat :=
  ((p.options.filter (fun o => o.id == i)).map PollOption.votes).sum

/-- Running maximum of the vote counts of a list of options, seeded with
`mx` (the shape of the accumulator in `getWinningOptionId`). -/
def maxFrom (l : List PollOption) (mx : Nat) : Nat :=
  l.foldl (fun a o => max a o.votes) mx

/-- The spec's description of `computeStreak`, stated independently of the
implementation for comparison: among the entries of kind `message`, taken
from the most recent backward, the length of the initial run authored by
`username`. -/
def streakSpec (l : List ChatMessage) (username : String) : Nat :=
  ((l.reverse.filter (fun m => m.type == "message")).takeWhile
    (fun m => m.username == username)).length

/-- The raw HTML markup delimiters that sanitized text must not contain
(the claim's list `< > " ' ` = /`). -/
def rawMarkup : List Char :=
  ['<', '>', Char.ofNat 34, Char.ofNat 39, Char.ofNat 96, '=', '/']

/-! ## Concrete fixtures used by scenario conjuncts and witnesses -/

/-- A plain chat message by the given author. -/
def msgFrom (i : Nat) (u : String) : ChatMessage :=
  { id := i, username := u, text := "go team", type := "message" }

/-- A reaction event by the given author. -/
def reactionFrom (i : Nat) (u : String) : ChatMessage :=
  { id := i, username := u, text := "🔥", type := "reaction" }

/-- An empty session state with a baseline XP of 7. -/
def stEmpty : AppState :=
  { messages := [], processedMessageIds := [], polls := [], userVotes := [], xp := 7 }

/-- An active two-option poll with votes A:3, B:1. -/
def pollAB : Poll :=
  { id := "poll-1", question := "Best team?",
    options := [ { id := 1, text := "A", votes := 3 }
               , { id := 2, text := "B", votes := 1 } ],
    totalVotes := 4, createdBy := "Bob", status := "active" }

/-- The same poll closed, with a two-way tie at 5 votes. -/
def pollTie : Poll :=
  { id := "poll-2", question := "Tied?",
    options := [ { id := 1, text := "A", votes := 5 }
               , { id := 2, text := "B", votes := 5 } ],
    totalVotes := 10, createdBy := "Bob", status := "closed" }

/-- A closed poll with no votes at all. -/
def pollZero : Poll :=
  { id := "poll-3", question := "Nobody?",
    options := [ { id := 1, text := "A", votes := 0 }
               , { id := 2, text := "B", votes := 0 } ],
    totalVotes := 0, createdBy := "Bob", status := "closed" }

/-- A session state holding the active poll. -/
def stPoll : AppState := { stEmpty with polls := [pollAB] }

/-! ## Helper lemmas -/

lemma escapeChar_markup_free (c : Char) :
    ((escapeChar c).data.all (fun d => !(rawMarkup.contains d))) = true := by
  unfold escapeChar
  split_ifs with h1 h2 h3 h4 h5 h6 h7 h8
  · decide
  · decide
  · decide
  · decide
  · decide
  · decide
  · decide
  · decide
  · simp only [String.singleton, List.all_cons, List.all_nil, Bool.and_true]
    simp [rawMarkup, List.contains, List.elem_eq_mem, h2, h3, h4, h5, h6, h7, h8]

lemma sanitizeChars_markup_free (l : List Char) :
    ((sanitizeChars l).all (fun d => !(rawMarkup.contains d))) = true := by
  induction l with
  | nil => rfl
  | cons c cs ih =>
      simp only [sanitizeChars, List.all_append, Bool.and_eq_true]
      exact ⟨escapeChar_markup_free c, ih⟩

lemma streakAux_eq (l : List ChatMessage) (u : String) :
    streakAux l u =
      ((l.filter (fun m => m.type == "message")).takeWhile
        (fun m => m.username == u)).length := by
  induction l with
  | nil => rfl
  | cons m rest ih =>
      by_cases hm : m.type = "message"
      · by_cases hu : m.username = u
        · simp [streakAux, hm, hu, ih]
        · simp [streakAux, hm, hu]
      · simp [streakAux, hm, ih]

lemma hasProcessed_mark (ledger : List Nat) (i : Nat) :
    hasProcessed (markProcessed ledger i) i = true := by
  unfold hasProcessed markProcessed
  split
  · assumption
  · simp

lemma LEVELS_reverse :
    LEVELS.reverse = [tierFlame, tierFiend, tierHeckler, tierSniper, tierRookie] := rfl

lemma calculateLevel_eq (xp : Int) :
    calculateLevel xp =
      if 1000 ≤ xp then tierFlame
      else if 600 ≤ xp then tierFiend
      else if 300 ≤ xp then tierHeckler
      else if 100 ≤ xp then tierSniper
      else tierRookie := by
  unfold calculateLevel
  rw [LEVELS_reverse]
  simp only [findLevel, tierFlame, tierFiend, tierHeckler, tierSniper, tierRookie]
  split_ifs <;> simp_all

lemma calcLevel_level (xp : Int) :
    (calculateLevel xp).level =
      if 1000 ≤ xp then 5
      else if 600 ≤ xp then 4
      else if 300 ≤ xp then 3
      else if 100 ≤ xp then 2
      else 1 := by
  rw [calculateLevel_eq]
  split_ifs <;> rfl

lemma receiveEvent_processed (st : AppState) (e : ChatMessage)
    (hp : hasProcessed st.processedMessageIds e.id = true) :
    receiveEvent st e = st := by
  unfold receiveEvent
  rw [if_neg]
  rintro ⟨-, h2⟩
  rw [hp] at h2
  cases h2

lemma receiveEvent_twice (st : AppState) (e : ChatMessage) :
    receiveEvent (receiveEvent st e) e = receiveEvent st e := by
  by_cases h : e.id ≠ 0 ∧ hasProcessed st.processedMessageIds e.id = false
  · have h1 : receiveEvent st e =
        { st with processedMessageIds := markProcessed st.processedMessageIds e.id,
                  messages := st.messages ++ [sanitizeMessageWithMedia e] } := by
      unfold receiveEvent
      rw [if_pos h]
    rw [h1]
    exact receiveEvent_processed _ _ (hasProcessed_mark _ _)
  · have h1 : receiveEvent st e = st := by
      unfold receiveEvent
      rw [if_neg h]
    rw [h1]
    exact h1

lemma bumpIfTracked_foldl (l : List ReactionEntry) (c : String → Nat)
    (e : String) (he : e ∈ EMOJIS) :
    (l.foldl (fun acc r => bumpIfTracked acc r.emoji) c) e
      = c e + l.countP (fun r => r.emoji == e) := by
  induction l generalizing c with
  | nil => simp
  | cons r rest ih =>
      simp only [List.foldl_cons, List.countP_cons]
      rw [ih]
      unfold bumpIfTracked
      by_cases hr : r.emoji ∈ EMOJIS
      · rw [if_pos hr]
        by_cases hre : e = r.emoji
        · simp only [if_pos rfl, hre]
          simp [hre.symm]
          omega
        · have hne : ¬(r.emoji = e) := fun h => hre h.symm
          simp [hre, hne]
      · rw [if_neg hr]
        have : ¬(r.emoji = e) := fun h => hr (h ▸ he)
        simp [this]

lemma recomputeCounts_eq (l : List ReactionEntry) (e : String)
    (he : e ∈ EMOJIS) :
    recomputeCounts l e = l.countP (fun r => r.emoji == e) := by
  unfold recomputeCounts
  rw [bumpIfTracked_foldl l _ e he]
  omega

lemma bump_sum (l : List PollOption) (oid : Nat) :
    ((l.map (fun o =>
        if o.id = oid then { o with votes := o.votes + 1 } else o)).map
      PollOption.votes).sum
      = (l.map PollOption.votes).sum + l.countP (fun o => o.id == oid) := by
  induction l with
  | nil => rfl
  | cons o rest ih =>
      simp only [List.map_cons, List.sum_cons, List.countP_cons, ih]
      by_cases h : o.id = oid
      · simp only [if_pos h, h]
        simp
        omega
      · simp only [if_neg h]
        simp [h]
        omega

lemma bump_filter (l : List PollOption) (oid i : Nat) :
    (l.map (fun o =>
        if o.id = oid then { o with votes := o.votes + 1 } else o)).filter
      (fun o => o.id == i)
      = (l.filter (fun o => o.id == i)).map (fun o =>
          if o.id = oid then { o with votes := o.votes + 1 } else o) := by
  induction l with
  | nil => rfl
  | cons o rest ih =>
      simp only [List.map_cons, List.filter_cons]
      have hid : ((if o.id = oid then { o with votes := o.votes + 1 } else o) :
          PollOption).id = o.id := by
        split <;> rfl
      by_cases hi : o.id = i
      · have c1 : (((if o.id = oid then { o with votes := o.votes + 1 } else o) :
            PollOption).id == i) = true := by
          rw [hid, hi]
          exact beq_self_eq_true i
        have c2 : (o.id == i) = true := by
          rw [hi]
          exact beq_self_eq_true i
        rw [if_pos c1, if_pos c2, List.map_cons, ih]
      · have c1 : ¬((((if o.id = oid then { o with votes := o.votes + 1 } else o) :
            PollOption).id == i) = true) := by
          rw [hid]
          simp [hi]
        have c2 : ¬((o.id == i) = true) := by simp [hi]
        rw [if_neg c1, if_neg c2]
        exact ih

lemma voteOnPoll_match (q : Poll) (pid : String) (oid : Nat) (hq : q.id = pid) :
    voteOnPoll pid oid q =
      { q with
          options := q.options.map (fun o =>
            if o.id = oid then { o with votes := o.votes + 1 } else o),
          totalVotes := q.totalVotes + 1 } := by
  unfold voteOnPoll
  rw [if_pos hq]

lemma filter_all_countP (l : List PollOption) (i : Nat) :
    (l.filter (fun o => o.id == i)).countP (fun o => o.id == i)
      = l.countP (fun o => o.id == i) := by
  induction l with
  | nil => rfl
  | cons o rest ih =>
      by_cases h : o.id = i
      · simp [List.filter_cons, List.countP_cons, h, ih]
      · simp [List.filter_cons, List.countP_cons, h, ih]

lemma filter_none_countP (l : List PollOption) (i j : Nat) (hij : i ≠ j) :
    (l.filter (fun o => o.id == i)).countP (fun o => o.id == j) = 0 := by
  induction l with
  | nil => rfl
  | cons o rest ih =>
      by_cases h : o.id = i
      · have : ¬(o.id = j) := fun hc => hij (h ▸ hc ▸ rfl)
        simp [List.filter_cons, List.countP_cons, h, this, ih, hij]
      · simp [List.filter_cons, h, ih]

lemma applyVote_closed (signed : Bool) (st : AppState) (p : Poll) (oid : Nat)
    (h : p.status = "closed") : applyVote signed st p oid = st := by
  unfold applyVote renderIsPast
  have hne : p.status ≠ "active" := by rw [h]; decide
  rw [if_neg hne, if_pos h]
  simp

lemma applyVote_other (signed : Bool) (st : AppState) (p : Poll) (oid : Nat)
    (h1 : p.status ≠ "active") (h2 : p.status ≠ "closed") :
    applyVote signed st p oid = st := by
  unfold applyVote renderIsPast
  rw [if_neg h1, if_neg h2]

lemma applyVote_active (signed : Bool) (st : AppState) (p : Poll) (oid : Nat)
    (h : p.status = "active") :
    applyVote signed st p oid =
      (if lookupVote st.userVotes p.id = none then handleVote signed st p.id oid
       else st) := by
  unfold applyVote renderIsPast
  rw [if_pos h]
  simp

lemma maxFrom_cons (o : PollOption) (rest : List PollOption) (mx : Nat) :
    maxFrom (o :: rest) mx = maxFrom rest (max mx o.votes) := rfl

lemma le_maxFrom (l : List PollOption) (mx : Nat) : mx ≤ maxFrom l mx := by
  induction l generalizing mx with
  | nil => exact Nat.le_refl mx
  | cons o rest ih =>
      rw [maxFrom_cons]
      exact Nat.le_trans (Nat.le_max_left mx o.votes) (ih (max mx o.votes))

lemma votes_le_maxFrom (l : List PollOption) (mx : Nat) :
    ∀ o ∈ l, o.votes ≤ maxFrom l mx := by
  induction l generalizing mx with
  | nil => intro o ho; cases ho
  | cons a rest ih =>
      intro o ho
      rw [maxFrom_cons]
      rcases List.mem_cons.mp ho with rfl | hmem
      · exact Nat.le_trans (Nat.le_max_right mx o.votes) (le_maxFrom rest _)
      · exact ih (max mx a.votes) o hmem

lemma winnerFold_spec (l : List PollOption) : ∀ (mx : Nat) (w : Option Nat),
    winnerFold l (mx, w) =
      (maxFrom l mx,
       if maxFrom l mx = mx then w
       else (l.find? (fun o => o.votes == maxFrom l mx)).map PollOption.id) := by
  induction l with
  | nil =>
      intro mx w
      simp [winnerFold, maxFrom]
  | cons o rest ih =>
      intro mx w
      rw [maxFrom_cons]
      unfold winnerFold
      by_cases h : o.votes > mx
      · rw [if_pos h]
        rw [ih o.votes (some o.id)]
        have hmx : max mx o.votes = o.votes := Nat.max_eq_right (Nat.le_of_lt h)
        rw [hmx]
        have hge : o.votes ≤ maxFrom rest o.votes := le_maxFrom rest o.votes
        have hne : maxFrom rest o.votes ≠ mx := by omega
        rw [if_neg hne]
        by_cases he : maxFrom rest o.votes = o.votes
        · rw [if_pos he]
          have hfind : (o :: rest).find? (fun x => x.votes == maxFrom rest o.votes)
              = some o := by
            rw [List.find?_cons]
            have : (o.votes == maxFrom rest o.votes) = true := by
              rw [he]
              exact beq_self_eq_true o.votes
            rw [this]
          rw [hfind]
          rfl
        · rw [if_neg he]
          have hfind : (o :: rest).find? (fun x => x.votes == maxFrom rest o.votes)
              = rest.find? (fun x => x.votes == maxFrom rest o.votes) := by
            rw [List.find?_cons]
            have : (o.votes == maxFrom rest o.votes) = false := by
              simp
              exact fun hc => he hc.symm
            rw [this]
          rw [hfind]
      · rw [if_neg h]
        rw [ih mx w]
        have hmx : max mx o.votes = mx := Nat.max_eq_left (Nat.le_of_not_lt h)
        rw [hmx]
        by_cases he : maxFrom rest mx = mx
        · rw [if_pos he, if_pos he]
        · rw [if_neg he, if_neg he]
          have hgt : mx < maxFrom rest mx :=
            Nat.lt_of_le_of_ne (le_maxFrom rest mx) (fun hc => he hc.symm)
          have hfind : (o :: rest).find? (fun x => x.votes == maxFrom rest mx)
              = rest.find? (fun x => x.votes == maxFrom rest mx) := by
            rw [List.find?_cons]
            have : (o.votes == maxFrom rest mx) = false := by
              simp
              omega
            rw [this]
          rw [hfind]

lemma maxFrom_pos_of_sum (p : Poll) (h : sumVotes p ≠ 0) :
    0 < maxFrom p.options 0 := by
  unfold sumVotes at h
  have : ∃ x ∈ p.options.map PollOption.votes, x ≠ 0 := by
    by_contra hc
    push_neg at hc
    exact h (List.sum_eq_zero_iff.mpr (fun x hx => by
      by_contra hx0
      exact hx0 (hc x hx)))
  rcases this with ⟨x, hx, hx0⟩
  rcases List.mem_map.mp hx with ⟨o, ho, rfl⟩
  have := votes_le_maxFrom p.options 0 o ho
  omega

/-! ## Claim theorems -/

/-- Claim C7: after a decay tick the externally observed per-emoji count map
counts exactly the recorded reactions inside the 30-second horizon (so no
entry older than the horizon contributes), every surviving timestamp is
fresh, and a single reaction at `t0` contributes 0 once the tick fires 31
seconds later. -/
theorem reaction_window_fresh (now : Int) (prev : List ReactionEntry)
    (e : String) (t0 : Int) :
    (e ∈ EMOJIS →
      (reactionTick now prev).2 e =
        prev.countP (fun r => (r.emoji == e) && decide (r.timestamp > now - 30000)))
    ∧ (reactionTick (t0 + 31000) [{ emoji := e, timestamp := t0 }]).2 e = 0
    ∧ (∀ r ∈ (reactionTick now prev).1, now - 30000 < r.timestamp) := by
  refine ⟨?_, ?_, ?_⟩
  · intro he
    unfold reactionTick
    simp only []
    rw [recomputeCounts_eq _ _ he, List.countP_filter]
  · have hstale : ¬((t0 : Int) > t0 + 31000 - 30000) := by omega
    simp [reactionTick, hstale, recomputeCounts]
  · intro r hr
    unfold reactionTick at hr
    simp only [List.mem_filter, decide_eq_true_eq] at hr
    exact hr.2

/-- Claim C5: `getWinningOptionId` is a linear scan for the maximum vote
count that keeps the first option reaching the maximum (first-seen-wins on
ties) and returns `null` when `totalVotes = 0`; concretely, the 5-5 tie
resolves to option 1, the 3-1 poll to option 1, and the voteless poll to
none. -/
theorem poll_winner_first_max (p : Poll) :
    (p.totalVotes = 0 → getWinningOptionId p = none)
    ∧ (p.totalVotes = sumVotes p → p.totalVotes ≠ 0 →
        getWinningOptionId p =
          (p.options.find? (fun o => o.votes == maxFrom p.options 0)).map
            PollOption.id)
    ∧ getWinningOptionId pollTie = some 1
    ∧ getWinningOptionId pollAB = some 1
    ∧ getWinningOptionId pollZero = none := by
  refine ⟨?_, ?_, by decide, by decide, by decide⟩
  · intro h
    unfold getWinningOptionId
    rw [if_pos h]
  · intro hsum hne
    unfold getWinningOptionId
    rw [if_neg hne, winnerFold_spec p.options 0 none]
    rw [hsum] at hne
    have hpos : 0 < maxFrom p.options 0 := maxFrom_pos_of_sum p hne
    rw [if_neg (by omega)]

/-- Witness for C5: on the concrete poll `pollAB` (where `totalVotes` is in
sync and nonzero) the winner is the first option holding the maximum. -/
theorem poll_winner_first_max_witness :
    getWinningOptionId pollAB =
      (pollAB.options.find? (fun o => o.votes == maxFrom pollAB.options 0)).map
        PollOption.id :=
  (poll_winner_first_max pollAB).2.1 (by decide) (by decide)

/-- Claim C4: the user-triggerable vote path is a no-op when the local vote
record already has an entry for the poll, and a no-op when the poll is not
active (closed polls are frozen); on success it applies `voteOnPoll`, which
adds 1 to exactly the target option's count and to `totalVotes`, keeping the
two in sync. -/
theorem apply_vote_contract (signed : Bool) (st : AppState) (p : Poll)
    (oid : Nat) :
    ((lookupVote st.userVotes p.id).isSome = true → applyVote signed st p oid = st)
    ∧ (p.status ≠ "active" → applyVote signed st p oid = st)
    ∧ (p.status = "active" → lookupVote st.userVotes p.id = none →
        (applyVote true st p oid).polls = st.polls.map (voteOnPoll p.id oid)
        ∧ (applyVote true st p oid).userVotes = setVote st.userVotes p.id oid)
    ∧ (∀ q : Poll, q.id ≠ p.id → voteOnPoll p.id oid q = q)
    ∧ (∀ q : Poll, q.id = p.id →
        (voteOnPoll p.id oid q).totalVotes = q.totalVotes + 1
        ∧ votesFor (voteOnPoll p.id oid q) oid
            = votesFor q oid + q.options.countP (fun o => o.id == oid)
        ∧ (∀ j, j ≠ oid → votesFor (voteOnPoll p.id oid q) j = votesFor q j)
        ∧ (q.options.countP (fun o => o.id == oid) = 1 →
            sumVotes (voteOnPoll p.id oid q) = sumVotes q + 1
            ∧ (q.totalVotes = sumVotes q →
                (voteOnPoll p.id oid q).totalVotes
                  = sumVotes (voteOnPoll p.id oid q)))) := by
  refine ⟨?_, ?_, ?_, ?_, ?_⟩
  · intro hv
    by_cases ha : p.status = "active"
    · rw [applyVote_active signed st p oid ha, if_neg]
      intro hc
      rw [hc] at hv
      cases hv
    · by_cases hc : p.status = "closed"
      · exact applyVote_closed signed st p oid hc
      · exact applyVote_other signed st p oid ha hc
  · intro ha
    by_cases hc : p.status = "closed"
    · exact applyVote_closed signed st p oid hc
    · exact applyVote_other signed st p oid ha hc
  · intro ha hnone
    rw [applyVote_active true st p oid ha, if_pos hnone]
    unfold handleVote
    rw [if_neg (by simp)]
    exact ⟨rfl, rfl⟩
  · intro q hq
    unfold voteOnPoll
    rw [if_neg hq]
  · intro q hq
    refine ⟨?_, ?_, ?_, ?_⟩
    · rw [voteOnPoll_match q p.id oid hq]
    · unfold votesFor
      rw [voteOnPoll_match q p.id oid hq]
      simp only []
      rw [bump_filter, bump_sum, filter_all_countP]
    · intro j hj
      unfold votesFor
      rw [voteOnPoll_match q p.id oid hq]
      simp only []
      rw [bump_filter, bump_sum, filter_none_countP q.options j oid hj]
      omega
    · intro hcount
      have hsum : sumVotes (voteOnPoll p.id oid q) = sumVotes q + 1 := by
        unfold sumVotes
        rw [voteOnPoll_match q p.id oid hq]
        simp only []
        rw [bump_sum, hcount]
      refine ⟨hsum, ?_⟩
      intro hsync
      have ht : (voteOnPoll p.id oid q).totalVotes = q.totalVotes + 1 := by
        rw [voteOnPoll_match q p.id oid hq]
      rw [ht, hsum, hsync]

/-- Witness for C4: on the concrete active poll `pollAB`, voting for option
2 as a fresh signed-in user updates the polls via `voteOnPoll`; once a vote
for the poll is recorded, the same click is a no-op. -/
theorem apply_vote_contract_witness :
    (applyVote true stPoll pollAB 2).polls = stPoll.polls.map (voteOnPoll "poll-1" 2)
    ∧ applyVote true { stPoll with userVotes := [("poll-1", 1)] } pollAB 2
        = { stPoll with userVotes := [("poll-1", 1)] }
    ∧ applyVote true stPoll pollTie 1 = stPoll
    ∧ sumVotes (voteOnPoll "poll-1" 2 pollAB) = sumVotes pollAB + 1 :=
  ⟨((apply_vote_contract true stPoll pollAB 2).2.2.1 (by decide) (by decide)).1,
   (apply_vote_contract true { stPoll with userVotes := [("poll-1", 1)] }
      pollAB 2).1 (by decide),
   (apply_vote_contract true stPoll pollTie 1).2.1 (by decide),
   (((apply_vote_contract true stPoll pollAB 2).2.2.2.2 pollAB rfl).2.2.2
      (by decide)).1⟩

/-- Witness for C7: one fresh reaction 10 seconds old is still counted by
the tick. -/
theorem reaction_window_fresh_witness :
    (reactionTick 110000 [{ emoji := "🔥", timestamp := 100000 }]).2 "🔥"
      = ([{ emoji := "🔥", timestamp := 100000 }] : List ReactionEntry).countP
          (fun r => (r.emoji == "🔥") && decide (r.timestamp > 110000 - 30000)) :=
  (reaction_window_fresh 110000 [{ emoji := "🔥", timestamp := 100000 }]
    "🔥" 0).1 (by decide)

/-- Claim C1: an inbound event whose id is already in the deduplication
ledger never mutates visible message state again: marking then checking the
same id yields `hasProcessed = true`, receiving the same broadcast event a
second time is a no-op, an already-processed id is never folded in, and a
local-optimistic send marks its own id in the ledger. -/
theorem dedup_single_application (ledger : List Nat) (i : Nat)
    (st : AppState) (e : ChatMessage) (msg u : String) (now : Nat) :
    hasProcessed (markProcessed ledger i) i = true
    ∧ receiveEvent (receiveEvent st e) e = receiveEvent st e
    ∧ (hasProcessed st.processedMessageIds e.id = true → receiveEvent st e = st)
    ∧ (normalizeMessageInput msg ≠ "" →
        hasProcessed (handleSendMessage st true msg u now).processedMessageIds
          now = true) := by
  refine ⟨hasProcessed_mark ledger i, receiveEvent_twice st e, ?_, ?_⟩
  · exact receiveEvent_processed st e
  · intro hne
    unfold handleSendMessage
    rw [if_neg (by simp)]
    simp only []
    rw [if_neg hne]
    exact hasProcessed_mark _ _

/-- Witness for C1: receiving an event whose id 5 is already in the ledger
leaves the state untouched, on a concrete state. -/
theorem dedup_single_application_witness :
    receiveEvent { stEmpty with processedMessageIds := [5] } (msgFrom 5 "A")
      = { stEmpty with processedMessageIds := [5] } :=
  (dedup_single_application [] 0 { stEmpty with processedMessageIds := [5] }
    (msgFrom 5 "A") "" "" 0).2.2.1 (by decide)

/-- Claim C6: `calculateLevel` returns the highest tier of the fixed 5-entry
table whose threshold is at most `xp`, with the rank-1 tier as fallback for
negative `xp`; hence its rank is monotone in `xp`, `calculateLevel 0` is rank
1 `Rookie Ranter` and `calculateLevel 1000` is rank 5 `Hall-of-Flame`. -/
theorem level_for_xp (x y : Int) (t : LevelTier) :
    calculateLevel 0 = tierRookie
    ∧ calculateLevel 1000 = tierFlame
    ∧ (x < 0 → calculateLevel x = tierRookie)
    ∧ (x ≤ y → (calculateLevel x).level ≤ (calculateLevel y).level)
    ∧ calculateLevel x ∈ LEVELS
    ∧ (0 ≤ x → (calculateLevel x).xpRequired ≤ x)
    ∧ (t ∈ LEVELS → t.xpRequired ≤ x → t.level ≤ (calculateLevel x).level) := by
  refine ⟨by decide, by decide, ?_, ?_, ?_, ?_, ?_⟩
  · intro hx
    rw [calculateLevel_eq]
    rw [if_neg (by omega), if_neg (by omega), if_neg (by omega), if_neg (by omega)]
  · intro hxy
    rw [calcLevel_level, calcLevel_level]
    split_ifs <;> omega
  · rw [calculateLevel_eq]
    split_ifs <;> simp [LEVELS]
  · intro hx
    rw [calculateLevel_eq]
    split_ifs with h1 h2 h3 h4 <;>
      simp only [tierFlame, tierFiend, tierHeckler, tierSniper, tierRookie] <;> omega
  · intro ht hle
    simp only [LEVELS, List.mem_cons, List.not_mem_nil, or_false] at ht
    rw [calcLevel_level]
    rcases ht with rfl | rfl | rfl | rfl | rfl <;>
      simp only [tierFlame, tierFiend, tierHeckler, tierSniper, tierRookie] at hle ⊢ <;>
      split_ifs <;> omega

/-- Witness for C6: at `xp = 250` the level has rank 2, at least the rank of
tier `Sideline Sniper` whose threshold 100 is below 250. -/
theorem level_for_xp_witness :
    (calculateLevel 250).level ≤ (calculateLevel 600).level
    ∧ tierSniper.level ≤ (calculateLevel 250).level :=
  ⟨(level_for_xp 250 600 tierRookie).2.2.2.1 (by omega),
   (level_for_xp 250 600 tierSniper).2.2.2.2.2.2 (by decide) (by decide)⟩

/-- Claim C8 (evaluation at the failing input): `handleSelectGif` accepts
the picker selection into the optimistic ChatEvent without running the
media-URL validation — the non-https selection
`http://media.giphy.com/x.gif` lands verbatim in the event's media field even
though `sanitizeMedia` (the §3 rule, applied on the receive and history
paths) rejects it; the rule itself does accept the https giphy URL and does
reject the non-allow-listed domain. -/
theorem gif_selection_skips_validation :
    ((handleSelectGif stEmpty "Bob" "http://media.giphy.com/x.gif" "celebrate"
        400 300 99).messages.getLast?).map ChatMessage.media
      = some (some { type := "gif", url := "http://media.giphy.com/x.gif",
                     alt := "celebrate", width := 400, height := 300 })
    ∧ sanitizeMedia { type := "gif", url := "http://media.giphy.com/x.gif",
                      alt := "celebrate", width := 400, height := 300 } = none
    ∧ (sanitizeMedia { type := "gif", url := "https://media.giphy.com/x.gif",
                       alt := "celebrate" }).isSome = true
    ∧ sanitizeMedia { type := "gif", url := "https://evil.example.com/x.gif",
                      alt := "celebrate" } = none := by
  refine ⟨by decide, by decide, by decide, by decide⟩

/-- Claim C9 (evaluation at the failing behavior): the XP rules table does
assign 10 to `pollCreate` and 5 to `pollVote`, but neither creating a poll
nor casting a vote changes the session XP — no code path applies those
rules. -/
theorem poll_actions_award_no_xp (st : AppState) (u q : String)
    (opts : List String) (now : Nat) (ts : String) (signed : Bool)
    (pid : String) (oid : Nat) :
    (handleCreatePoll st u q opts now ts).xp = st.xp
    ∧ (handleVote signed st pid oid).xp = st.xp
    ∧ XP_RULES.pollCreate = 10 ∧ XP_RULES.pollVote = 5 := by
  refine ⟨rfl, ?_, rfl, rfl⟩
  unfold handleVote
  split
  · rfl
  · rfl

/-- Claim C2: `calculateCurrentStreak` scans the history from the most recent
entry backward, counts consecutive `message` entries by the given author,
stops at the first `message` entry by a different author, and skips
non-message entries; the scenario `[msgA(Bob), reaction, msgA(Bob),
msgA(Bob)]` yields streak 3 for Bob. -/
theorem streak_matches_spec (l : List ChatMessage) (u : String) :
    calculateCurrentStreak l u = streakSpec l u
    ∧ calculateCurrentStreak
        [msgFrom 1 "Bob", reactionFrom 2 "Sam", msgFrom 3 "Bob", msgFrom 4 "Bob"]
        "Bob" = 3 := by
  constructor
  · unfold calculateCurrentStreak streakSpec
    exact streakAux_eq l.reverse u
  · decide

/-- Claim C3: the XP delta for a sent message is the base 5 plus a milestone
bonus exactly at streak 3, 5 or 10 (15, 30, 50); any other streak value gets
the base only, so the 3rd consecutive message awards 20 and the 4th awards
5. -/
theorem message_xp_delta (s : Nat) :
    (s ≠ 3 → s ≠ 5 → s ≠ 10 → XP_RULES.message + calculateStreakBonus s = 5)
    ∧ XP_RULES.message + calculateStreakBonus 3 = 20
    ∧ XP_RULES.message + calculateStreakBonus 5 = 35
    ∧ XP_RULES.message + calculateStreakBonus 10 = 55
    ∧ awardXPForMessage (List.replicate 3 (msgFrom 1 "Bob")) "Bob" = 20
    ∧ awardXPForMessage (List.replicate 4 (msgFrom 1 "Bob")) "Bob" = 5 := by
  refine ⟨?_, by decide, by decide, by decide, by decide, by decide⟩
  intro h3 h5 h10
  simp [calculateStreakBonus, XP_RULES, h3, h5, h10]

/-- Witness for C3 at the non-milestone streak 7. -/
theorem message_xp_delta_witness :
    XP_RULES.message + calculateStreakBonus 7 = 5 :=
  (message_xp_delta 7).1 (by decide) (by decide) (by decide)

/-- Claim C10: `sanitizeText` is total over arbitrary JS values — every
non-string input yields the empty string — and sanitized strings contain no
raw markup delimiter among `< > " ' ` = /` (each is replaced by its HTML
entity). -/
theorem sanitize_text_total_and_markup_free (s : String) (n : Int) (b : Bool) :
    sanitizeText .null = "" ∧ sanitizeText .undef = "" ∧ sanitizeText .obj = ""
    ∧ sanitizeText (.num n) = "" ∧ sanitizeText (.boolean b) = ""
    ∧ ((sanitizeTextStr s).data.all (fun c => !(rawMarkup.contains c))) = true
    ∧ sanitizeTextStr "<script>" = "&lt;script&gt;" := by
  refine ⟨rfl, rfl, rfl, rfl, rfl, ?_, by decide⟩
  exact sanitizeChars_markup_free s.data

end SmackTalk
